import Mathlib

open List

/-!
Verification development for the practice-test generator (`quiz.py`).

The program is embedded shallowly:

* Python strings stay `String`; `str.strip` / `str.lower` / `int(...)` are
  modelled over the ASCII alphabet the program's data uses (`pyStrip`,
  `pyLower`, `pyInt`, the latter including Python's sign and underscore
  grouping rules for decimal literals).
* The JSON question-bank file is abstracted to a list of records carrying
  exactly the fields the dataclass `Question` declares; `json.load`/`json.dump`
  fidelity for ints, strings, lists and null is assumed at that boundary.
* `random.sample` / `random.shuffle` consume an injected index source
  `f : Nat → Nat` (the "remove a chosen index each round" view of sampling
  without replacement); theorems quantify over every such source, covering
  every outcome the global random state could produce.
* `input()` is a stream `Nat → String` (one entry per prompt); printing is
  dropped, being output-only.
* The metrics dict is a function `Int → Option Stats`; the pickle file is the
  same type.  `QuizRunner.ask_question` mutates the dict in place in Python;
  here it returns the updated mapping.
-/

/-- ASCII whitespace recognised by `str.strip` (space, tab, LF, CR, VT, FF). -/
def isPySpace (c : Char) : Bool :=
  c == ' ' || c == '\t' || c == '\n' || c == '\r' || c == '\x0b' || c == '\x0c'

/-- Model of `str.strip`: drop leading and trailing whitespace. -/
def pyStrip (s : String) : String :=
  String.mk (((s.toList.dropWhile isPySpace).reverse.dropWhile isPySpace).reverse)

/-- Model of `str.lower` over the ASCII range the bank data uses. -/
def pyLower (s : String) : String :=
  String.mk (s.toList.map Char.toLower)

/-- Numeric value of an ASCII digit character. -/
def digitVal (c : Char) : Nat :=
  c.toNat - 48

/-- Tail of Python's decimal-literal parser: digits, with a single underscore
permitted between two digits (`int("1_0") = 10`, `int("1__0")` raises). -/
def pyDigitsGo (acc : Nat) : List Char → Option Nat
  | [] => some acc
  | '_' :: c :: cs => if c.isDigit then pyDigitsGo (acc * 10 + digitVal c) cs else none
  | c :: cs => if c.isDigit then pyDigitsGo (acc * 10 + digitVal c) cs else none

/-- Nonempty digit run (first character must be a digit). -/
def pyDigits : List Char → Option Nat
  | c :: cs => if c.isDigit then pyDigitsGo (digitVal c) cs else none
  | [] => none

/-- Model of Python `int(s)` on an already-stripped string: optional sign
followed by a digit run; `none` models the `ValueError` branch. -/
def pyInt (s : String) : Option Int :=
  match s.toList with
  | '+' :: cs => (pyDigits cs).map (fun n => (n : Int))
  | '-' :: cs => (pyDigits cs).map (fun n => -(n : Int))
  | cs => (pyDigits cs).map (fun n => (n : Int))

/-- One JSON object of the bank file: exactly the keys the dataclass
`Question` declares, the three type-specific ones nullable.  Records missing
one of the seven required keys would make `Question(**q)` raise `TypeError`
and are outside this record model. -/
structure JsonRecord where
  id : Int
  question : String
  type : String
  difficulty : String
  topic : String
  tags : List String
  explanation : String
  choices : Option (List String)
  correct : Option Int
  answer : Option String
deriving DecidableEq

/-- The dataclass `Question` of `quiz.py` (lines 11-22): the three
type-specific fields default to `None`; no validation is performed. -/
structure Question where
  id : Int
  question : String
  type : String
  difficulty : String
  topic : String
  tags : List String
  explanation : String
  choices : Option (List String)
  correct : Option Int
  answer : Option String
deriving DecidableEq

/-- `Question(**q)`: each record field is copied into the dataclass. -/
def Question.ofRecord (r : JsonRecord) : Question :=
  ⟨r.id, r.question, r.type, r.difficulty, r.topic, r.tags, r.explanation,
    r.choices, r.correct, r.answer⟩

/-- `q.__dict__` as serialised by `to_json`. -/
def Question.toRecord (q : Question) : JsonRecord :=
  ⟨q.id, q.question, q.type, q.difficulty, q.topic, q.tags, q.explanation,
    q.choices, q.correct, q.answer⟩

/-- The dataclass `QuestionBank` (lines 25-49). -/
structure QuestionBank where
  questions : List Question
deriving DecidableEq

/-- `QuestionBank.from_json` (lines 29-34): builds `Question(**q)` for every
record and wraps them — there is no validation step, so for records carrying
the seven required keys loading always succeeds.  The `Except` result records
that the Python function has no declared failure mode of its own (I/O and
missing-required-key `TypeError`s live outside the record model). -/
def QuestionBank.from_json (records : List JsonRecord) : Except String QuestionBank :=
  Except.ok ⟨records.map Question.ofRecord⟩

/-- `QuestionBank.to_json` (lines 36-39): serialises every question
field-for-field. -/
def QuestionBank.to_json (b : QuestionBank) : List JsonRecord :=
  b.questions.map Question.toRecord

/-- One stage of `QuestionBank.filter`: Python's `if topic:` / `if difficulty:`
treats both `None` and the empty string as "no criterion". -/
def filterBy (get : Question → String) (crit : Option String) (l : List Question) : List Question :=
  match crit with
  | some c => if c = "" then l else l.filter (fun q => get q == c)
  | none => l

/-- `QuestionBank.filter` (lines 41-49): topic criterion first, then
difficulty, each skipped when falsy. -/
def QuestionBank.filter (b : QuestionBank) (topic difficulty : Option String) : List Question :=
  filterBy Question.difficulty difficulty (filterBy Question.topic topic b.questions)

/-- The dataclass `QuizConfig` (lines 52-55): the Python dict
`counts_by_difficulty` becomes an association list in insertion order; dict
semantics make its keys pairwise distinct.  Desired counts are naturals
(`main` only ever inserts positive ones). -/
structure QuizConfig where
  counts_by_difficulty : List (String × Nat)
  topic : Option String

/-- The dynamically-typed `user_answer` slot of `QuizQuestion`: an `int`
(zero-based parsed choice) or a string. -/
inductive UserAnswer where
  | idx : Int → UserAnswer
  | str : String → UserAnswer
deriving DecidableEq

/-- The dataclass `QuizQuestion` (lines 58-62). -/
structure QuizQuestion where
  question : Question
  user_answer : UserAnswer
  is_correct : Bool
deriving DecidableEq

/-- One entry of `QuizResult.details` (lines 128-136). -/
structure Detail where
  question : String
  user_answer : UserAnswer
  is_correct : Bool
  explanation : String
deriving DecidableEq

/-- The dataclass `QuizResult` (lines 65-69); the Python float score is
modelled as an exact rational. -/
structure QuizResult where
  quiz_questions : List QuizQuestion
  score : ℚ
  details : List Detail

/-- One value of the metrics dict: `{"asked": ..., "correct": ...}`. -/
structure Stats where
  asked : Nat
  correct : Nat
deriving DecidableEq

/-- `QuizRunner.metrics` / the pickled snapshot: question id to counters,
absent ids mapped to `none`. -/
abbrev Metrics := Int → Option Stats

/-- The empty dict `{}` of `QuizRunner.__init__` (line 96). -/
def emptyMetrics : Metrics := fun _ => none

/-- Lines 115-118: `setdefault(q.id, {"asked": 0, "correct": 0})`, then
`asked += 1` and, when correct, `correct += 1`. -/
def bumpMetrics (m : Metrics) (qid : Int) (isCorrect : Bool) : Metrics :=
  fun j =>
    if j = qid then
      let s := (m qid).getD ⟨0, 0⟩
      some ⟨s.asked + 1, if isCorrect then s.correct + 1 else s.correct⟩
    else m j

/-- `random.sample(pool, k)` driven by the index source `f` from offset
`step`: each round removes the chosen element, so the draw is without
replacement; the draw stops early only when the pool is exhausted. -/
def sampleGo (f : Nat → Nat) : Nat → Nat → List Question → List Question
  | _, 0, _ => []
  | _, _ + 1, [] => []
  | step, k + 1, q :: qs =>
    (q :: qs).get ⟨f step % (q :: qs).length, Nat.mod_lt _ (Nat.succ_pos qs.length)⟩ ::
      sampleGo f (step + 1) k ((q :: qs).eraseIdx (f step % (q :: qs).length))

/-- `random.shuffle(selection)` (line 90): a permutation of the list,
parameterised by the index source `g`. -/
def pyShuffle (g : Nat → Nat) (l : List Question) : List Question :=
  sampleGo g 0 l.length l

/-- The per-difficulty loop of `QuizGenerator.generate_quiz` (lines 79-83):
for each `(difficulty, count)` pair, filter, skip empty pools, and extend the
selection with `random.sample(pool, min(count, len(pool)))`.  The offset
`step` threads the shared random stream through the successive draws. -/
def generateByDifficulty (f : Nat → Nat) (bank : QuestionBank) (topic : Option String) :
    Nat → List (String × Nat) → List Question
  | _, [] => []
  | step, (diff, count) :: rest =>
    let pool := bank.filter topic (some diff)
    if pool = [] then generateByDifficulty f bank topic step rest
    else
      let drawn := sampleGo f step (min count pool.length) pool
      drawn ++ generateByDifficulty f bank topic (step + drawn.length) rest

/-- `QuizGenerator.generate_quiz` (lines 76-91).  Python's `if
config.counts_by_difficulty:` and `if num_questions:` are falsy on the empty
dict and on `None`/`0` respectively; the assembled selection is shuffled
before being returned. -/
def generate_quiz (f g : Nat → Nat) (bank : QuestionBank) (config : QuizConfig)
    (num_questions : Option Nat) : List Question :=
  let selection :=
    match config.counts_by_difficulty with
    | [] =>
      let pool := bank.filter config.topic none
      match num_questions with
      | some n => if n = 0 then pool else sampleGo f 0 (min n pool.length) pool
      | none => pool
    | p :: ps => generateByDifficulty f bank config.topic 0 (p :: ps)
  pyShuffle g selection

/-- `QuizRunner.ask_question` (lines 98-122) with the prompt response passed
in as `raw`.  The mcq branch strips the response and tries `int(...)`;
success grades by `user_idx == q.correct` (an `Optional[int]` comparison that
is `False` when `correct` is `None`) and stores the zero-based index, failure
stores the stripped string and grades `False`.  The free-text branch strips
and lower-cases the response and compares it with `(q.answer or "").lower()`.
Finally the metrics entry for `q.id` is bumped. -/
def ask_question (metrics : Metrics) (q : Question) (raw : String) : QuizQuestion × Metrics :=
  let graded :=
    if q.type = "mcq" then
      let s := pyStrip raw
      match pyInt s with
      | some n => (UserAnswer.idx (n - 1), q.correct == some (n - 1))
      | none => (UserAnswer.str s, false)
    else
      let s := pyLower (pyStrip raw)
      (UserAnswer.str s, s == pyLower (q.answer.getD ""))
  (⟨q, graded.1, graded.2⟩, bumpMetrics metrics q.id graded.2)

/-- The question loop of `QuizRunner.run` (line 125): ask each question in
order, threading the metrics dict; `i` indexes the response stream. -/
def runGo (inputs : Nat → String) : Nat → Metrics → List Question → List QuizQuestion × Metrics
  | _, m, [] => ([], m)
  | i, m, q :: qs =>
    let r := ask_question m q (inputs i)
    let rest := runGo inputs (i + 1) r.2 qs
    (r.1 :: rest.1, rest.2)

/-- `sum(1 for q in quiz_questions if q.is_correct)` (line 126). -/
def countCorrect (l : List QuizQuestion) : Nat :=
  (l.filter (fun qq => qq.is_correct)).length

/-- The `details` list comprehension of `QuizRunner.run` (lines 128-136). -/
def mkDetails (l : List QuizQuestion) : List Detail :=
  l.map (fun qq => ⟨qq.question.question, qq.user_answer, qq.is_correct, qq.question.explanation⟩)

/-- `QuizRunner.run` (lines 124-137): the score is
`correct / total * 100` unless the question list is empty, in which case it
is `0.0`. -/
def run (inputs : Nat → String) (m : Metrics) (questions : List Question) :
    QuizResult × Metrics :=
  let r := runGo inputs 0 m questions
  let score : ℚ := if r.1 = [] then 0 else (countCorrect r.1 : ℚ) / (r.1.length : ℚ) * 100
  (⟨r.1, score, mkDetails r.1⟩, r.2)

/-- `save_metrics` (lines 140-142): overwrite the snapshot with the runner's
mapping (the previous file contents are discarded). -/
def save_metrics (runnerMetrics : Metrics) (_file : Metrics) : Metrics :=
  runnerMetrics

/-- `load_metrics` (lines 145-147): read the snapshot back. -/
def load_metrics (file : Metrics) : Metrics :=
  file

/-- A fixed index source: every draw picks the first remaining element. -/
def f0 : Nat → Nat := fun _ => 0

/-- An easy free-text geography question with canonical answer `Paris`. -/
def qA : Question :=
  ⟨1, "Capital of France?", "short", "easy", "geo", [], "It is Paris.",
    none, none, some ("Paris")⟩

/-- An easy multiple-choice question whose correct zero-based index is 1. -/
def qB : Question :=
  ⟨2, "What is 2 + 2?", "mcq", "easy", "math", [], "Four.",
    some (["3", "4"]), some 1, none⟩

/-- A hard multiple-choice question. -/
def qC : Question :=
  ⟨3, "Complexity of comparison sort?", "mcq", "hard", "math", [], "n log n.",
    some (["n", "n log n"]), some 1, none⟩

/-- A free-text question whose canonical answer carries trailing whitespace. -/
def qTrail : Question :=
  ⟨4, "Capital of France?", "short", "easy", "geo", [], "It is Paris.",
    none, none, some ("Paris ")⟩

/-- A multiple-choice bank record that lacks both its choice list and its
correct index. -/
def badRecord : JsonRecord :=
  ⟨9, "Pick one", "mcq", "easy", "misc", [], "missing fields", none, none, none⟩

/-- A three-question bank: two easy, one hard. -/
def demoBank : QuestionBank := ⟨[qA, qB, qC]⟩

/-- A scripted response stream: the first three prompts are answered with the
canonical answer of `qA`, later ones wrongly. -/
def demoInputs : Nat → String := fun i => if i < 3 then "Paris" else "nope"

/-- The argparse surface of `main` (lines 151-158), restricted to the values
the flags accept in a run that reaches the quiz (argparse `type=int` counts
are modelled as naturals; only positive ones enter the policy map). -/
structure Args where
  topic : Option String
  num_questions : Option Nat
  easy : Nat
  medium : Nat
  hard : Nat

/-- The counts dict comprehension of `main` (lines 161-165): easy, medium,
hard in that order, keeping only positive counts. -/
def buildCounts (a : Args) : List (String × Nat) :=
  ([("easy", a.easy), ("medium", a.medium), ("hard", a.hard)] : List (String × Nat)).filter
    (fun p => decide (0 < p.2))

/-- `main` (lines 150-175, embedded as `pyMain`): load the bank, build the policy, generate the
quiz, and run it with a fresh `QuizRunner` (whose metrics dict starts empty).
The metrics snapshot `metricsFile` is returned untouched: `main` calls
neither `load_metrics` nor `save_metrics`. -/
def pyMain (f g : Nat → Nat) (inputs : Nat → String) (bankFile : List JsonRecord)
    (a : Args) (metricsFile : Metrics) : Except String (QuizResult × Metrics) :=
  match QuestionBank.from_json bankFile with
  | Except.error e => Except.error e
  | Except.ok bank =>
    let cfg : QuizConfig := ⟨buildCounts a, a.topic⟩
    let questions := generate_quiz f g bank cfg a.num_questions
    let r := run inputs emptyMetrics questions
    Except.ok (r.1, metricsFile)

/-! ## General lemmas about the sampling primitive -/

/-- Removing the element picked at an index and re-consing it is a
permutation of the original list. -/
theorem get_cons_eraseIdx_perm {α : Type _} : ∀ (l : List α) (i : Fin l.length),
    l.get i :: l.eraseIdx i ~ l
  | _ :: _, ⟨0, _⟩ => List.Perm.refl _
  | a :: l, ⟨j + 1, hj⟩ => by
    have ih := get_cons_eraseIdx_perm l ⟨j, Nat.lt_of_succ_lt_succ hj⟩
    exact (List.Perm.swap a (l.get ⟨j, Nat.lt_of_succ_lt_succ hj⟩) _).trans (ih.cons a)

/-- `random.sample` draws exactly `min k (len pool)` elements. -/
theorem sampleGo_length (f : Nat → Nat) :
    ∀ (k step : Nat) (pool : List Question), (sampleGo f step k pool).length = min k pool.length
  | 0, _, pool => by simp [sampleGo]
  | _ + 1, _, [] => by simp [sampleGo]
  | k + 1, step, q :: qs => by
    have hlt : f step % (q :: qs).length < (q :: qs).length :=
      Nat.mod_lt _ (Nat.succ_pos qs.length)
    have hh : sampleGo f step (k + 1) (q :: qs)
        = (q :: qs).get ⟨f step % (q :: qs).length, hlt⟩ ::
            sampleGo f (step + 1) k ((q :: qs).eraseIdx (f step % (q :: qs).length)) := rfl
    rw [hh, List.length_cons, sampleGo_length f k (step + 1) _,
      List.length_eraseIdx_of_lt hlt]
    simp only [List.length_cons]
    omega

/-- The sample is drawn without replacement: as a multiset it is contained
in the pool. -/
theorem sampleGo_subperm (f : Nat → Nat) :
    ∀ (k step : Nat) (pool : List Question), sampleGo f step k pool <+~ pool
  | 0, _, pool => by simp [sampleGo]
  | _ + 1, _, [] => by simp [sampleGo]
  | k + 1, step, q :: qs => by
    have ih := sampleGo_subperm f k (step + 1) ((q :: qs).eraseIdx (f step % (q :: qs).length))
    have hperm := get_cons_eraseIdx_perm (q :: qs)
      ⟨f step % (q :: qs).length, Nat.mod_lt _ (Nat.succ_pos qs.length)⟩
    exact ((List.subperm_cons _).mpr ih).trans hperm.subperm

/-- Asking for at least the whole pool returns a permutation of the pool. -/
theorem sampleGo_perm_of_le (f : Nat → Nat) (k step : Nat) (pool : List Question)
    (h : pool.length ≤ k) : sampleGo f step k pool ~ pool :=
  (sampleGo_subperm f k step pool).perm_of_length_le
    (by rw [sampleGo_length]; omega)

/-- A sample from a duplicate-free pool is duplicate-free. -/
theorem sampleGo_nodup (f : Nat → Nat) (k step : Nat) (pool : List Question)
    (h : pool.Nodup) : (sampleGo f step k pool).Nodup := by
  obtain ⟨l, hl, hs⟩ := sampleGo_subperm f k step pool
  exact hl.nodup (hs.nodup h)

/-- `random.shuffle` permutes the list. -/
theorem pyShuffle_perm (g : Nat → Nat) (l : List Question) : pyShuffle g l ~ l :=
  sampleGo_perm_of_le g l.length 0 l (Nat.le_refl _)

/-! ## Lemmas about filtering -/

/-- Each filtering stage yields a sublist. -/
theorem filterBy_sublist (get : Question → String) (crit : Option String) (l : List Question) :
    filterBy get crit l <+ l := by
  cases crit with
  | none => exact List.Sublist.refl l
  | some c =>
    simp only [filterBy]
    split
    · exact List.Sublist.refl l
    · exact List.filter_sublist l

/-- Surviving a non-falsy criterion means matching it. -/
theorem eq_of_mem_filterBy (get : Question → String) (c : String) (l : List Question)
    (hc : c ≠ "") (q : Question) (hq : q ∈ filterBy get (some c) l) : get q = c := by
  simp only [filterBy, if_neg hc] at hq
  exact eq_of_beq (List.mem_filter.mp hq).2

/-- `QuestionBank.filter` yields a sublist of the bank. -/
theorem QuestionBank.filter_sublist (b : QuestionBank) (t d : Option String) :
    b.filter t d <+ b.questions :=
  (filterBy_sublist _ d _).trans (filterBy_sublist _ t _)

/-- Members of a pool filtered by a non-empty difficulty label carry that
label. -/
theorem QuestionBank.difficulty_of_mem_filter (b : QuestionBank) (t : Option String)
    (d : String) (hd : d ≠ "") (q : Question) (hq : q ∈ b.filter t (some d)) :
    q.difficulty = d :=
  eq_of_mem_filterBy _ d _ hd q hq

/-! ## Lemmas about the per-difficulty selection loop -/

/-- Each `(difficulty, count)` pair contributes exactly
`min count (len pool)` questions; an empty pool contributes zero. -/
theorem generateByDifficulty_length (f : Nat → Nat) (bank : QuestionBank)
    (topic : Option String) :
    ∀ (pairs : List (String × Nat)) (step : Nat),
      (generateByDifficulty f bank topic step pairs).length
        = (pairs.map (fun p => min p.2 (bank.filter topic (some p.1)).length)).sum
  | [], _ => rfl
  | (diff, count) :: rest, step => by
    simp only [generateByDifficulty, List.map_cons, List.sum_cons]
    by_cases hp : bank.filter topic (some diff) = []
    · rw [if_pos hp, generateByDifficulty_length f bank topic rest step, hp]
      simp
    · rw [if_neg hp]
      simp only [List.length_append, sampleGo_length,
        generateByDifficulty_length f bank topic rest _]
      omega

/-- Every selected question comes from the bank. -/
theorem generateByDifficulty_subset (f : Nat → Nat) (bank : QuestionBank)
    (topic : Option String) :
    ∀ (pairs : List (String × Nat)) (step : Nat) (q : Question),
      q ∈ generateByDifficulty f bank topic step pairs → q ∈ bank.questions
  | [], _, q => by simp [generateByDifficulty]
  | (diff, count) :: rest, step, q => by
    simp only [generateByDifficulty]
    split
    · exact generateByDifficulty_subset f bank topic rest step q
    · intro hq
      rcases List.mem_append.mp hq with h | h
      · exact (QuestionBank.filter_sublist bank topic (some diff)).subset
          ((sampleGo_subperm f _ _ _).subset h)
      · exact generateByDifficulty_subset f bank topic rest _ q h

/-- With non-empty difficulty labels, every selected question carries one of
the policy's labels. -/
theorem difficulty_of_mem_generateByDifficulty (f : Nat → Nat) (bank : QuestionBank)
    (topic : Option String) :
    ∀ (pairs : List (String × Nat)) (step : Nat) (q : Question),
      (∀ p ∈ pairs, p.1 ≠ "") → q ∈ generateByDifficulty f bank topic step pairs →
        q.difficulty ∈ pairs.map Prod.fst
  | [], _, q => by simp [generateByDifficulty]
  | (diff, count) :: rest, step, q => by
    intro hlab
    simp only [generateByDifficulty]
    split
    · intro hq
      exact List.mem_cons_of_mem _
        (difficulty_of_mem_generateByDifficulty f bank topic rest step q
          (fun p hp => hlab p (List.mem_cons_of_mem _ hp)) hq)
    · intro hq
      rcases List.mem_append.mp hq with h | h
      · have hdiff : q.difficulty = diff :=
          QuestionBank.difficulty_of_mem_filter bank topic diff
            (hlab (diff, count) (List.mem_cons_self _ _)) q
            ((sampleGo_subperm f _ _ _).subset h)
        simp [hdiff]
      · exact List.mem_cons_of_mem _
          (difficulty_of_mem_generateByDifficulty f bank topic rest _ q
            (fun p hp => hlab p (List.mem_cons_of_mem _ hp)) h)

/-- With distinct non-empty difficulty labels and a duplicate-free bank, the
concatenated draws are duplicate-free: the buckets are disjoint because each
draw carries its own difficulty label. -/
theorem generateByDifficulty_nodup (f : Nat → Nat) (bank : QuestionBank)
    (topic : Option String) (hbank : bank.questions.Nodup) :
    ∀ (pairs : List (String × Nat)) (step : Nat),
      (pairs.map Prod.fst).Nodup → (∀ p ∈ pairs, p.1 ≠ "") →
        (generateByDifficulty f bank topic step pairs).Nodup
  | [], _, _, _ => List.nodup_nil
  | (diff, count) :: rest, step, hkeys, hlab => by
    have hkeys' : (rest.map Prod.fst).Nodup := by
      simpa using (List.nodup_cons.mp (by simpa using hkeys)).2
    have hnotin : diff ∉ rest.map Prod.fst :=
      (List.nodup_cons.mp (by simpa using hkeys)).1
    have hlab' : ∀ p ∈ rest, p.1 ≠ "" := fun p hp => hlab p (List.mem_cons_of_mem _ hp)
    simp only [generateByDifficulty]
    split
    · exact generateByDifficulty_nodup f bank topic hbank rest step hkeys' hlab'
    · refine List.Nodup.append ?_ ?_ ?_
      · exact sampleGo_nodup f _ _ _
          ((QuestionBank.filter_sublist bank topic (some diff)).nodup hbank)
      · exact generateByDifficulty_nodup f bank topic hbank rest _ hkeys' hlab'
      · intro x hx hx'
        have h1 : x.difficulty = diff :=
          QuestionBank.difficulty_of_mem_filter bank topic diff
            (hlab (diff, count) (List.mem_cons_self _ _)) x
            ((sampleGo_subperm f _ _ _).subset hx)
        have h2 : x.difficulty ∈ rest.map Prod.fst :=
          difficulty_of_mem_generateByDifficulty f bank topic rest _ x hlab' hx'
        rw [h1] at h2
        exact hnotin h2

/-! ## Lemmas about the session loop -/

/-- The session asks every selected question exactly once. -/
theorem runGo_length (inputs : Nat → String) :
    ∀ (qs : List Question) (i : Nat) (m : Metrics),
      (runGo inputs i m qs).1.length = qs.length
  | [], _, _ => rfl
  | q :: qs, i, m => by
    simp only [runGo, List.length_cons]
    exact congrArg (· + 1) (runGo_length inputs qs (i + 1) _)

/-! ## Claim C1 — free-text grading -/

/-- Claim C1 counterexample: the claim says both the response and the
canonical answer are trimmed before comparison.  For `qTrail` (canonical
answer with trailing whitespace) and response `Paris`, the two
trimmed-and-lower-cased strings are equal, yet the code grades the answer
incorrect — `q.answer` is lower-cased but never stripped (line 113). -/
theorem free_text_claimed_normalization_fails :
    pyLower (pyStrip ("Paris")) = pyLower (pyStrip (qTrail.answer.getD ""))
    ∧ (ask_question emptyMetrics qTrail ("Paris")).1.is_correct = false := by
  constructor <;> decide

/-- Claim C1 amended: for every free-text question, grading lower-cases both
strings but trims surrounding whitespace only from the raw user response;
`isCorrect` is true exactly when the trimmed-and-lower-cased response equals
the lower-cased (untrimmed) canonical answer, with a missing answer treated
as the empty string.  No fuzzy matching. -/
theorem free_text_grading (m : Metrics) (q : Question) (raw : String) (h : q.type ≠ "mcq") :
    ((ask_question m q raw).1.is_correct = true
      ↔ pyLower (pyStrip raw) = pyLower (q.answer.getD "")) := by
  simp [ask_question, h]

/-- Witness for `free_text_grading` at `qA` with response ` PARIS `. -/
theorem free_text_grading_witness :
    qA.type ≠ "mcq"
    ∧ ((ask_question emptyMetrics qA (" PARIS ")).1.is_correct = true
        ↔ pyLower (pyStrip (" PARIS ")) = pyLower (qA.answer.getD "")) :=
  ⟨by decide, free_text_grading emptyMetrics qA (" PARIS ") (by decide)⟩

/-! ## Claim C2 — bank loading of malformed records -/

/-- Claim C2 counterexample: a multiple-choice record with no choice list
and no correct index loads without any error (`from_json` performs no
validation — there is no `MalformedBankError` anywhere in the program), and
a session on the resulting bank asks the malformed question. -/
theorem malformed_mcq_record_loads_and_runs :
    QuestionBank.from_json [badRecord] = Except.ok ⟨[Question.ofRecord badRecord]⟩
    ∧ (Question.ofRecord badRecord).type = "mcq"
    ∧ (Question.ofRecord badRecord).choices = none
    ∧ (Question.ofRecord badRecord).correct = none
    ∧ (run (fun _ => "1") emptyMetrics [Question.ofRecord badRecord]).1.quiz_questions.length = 1 :=
  ⟨rfl, rfl, rfl, rfl, rfl⟩

/-- Claim C2 amended: loading performs no structural validation at all —
every record set (including records lacking type-specific fields or with an
out-of-range correct index, both representable here) loads successfully into
one `Question` per record, and a session on the loaded bank runs, asking one
question per record. -/
theorem loading_accepts_all_records (records : List JsonRecord) (inputs : Nat → String) :
    ∃ b : QuestionBank, QuestionBank.from_json records = Except.ok b
      ∧ (run inputs emptyMetrics b.questions).1.quiz_questions.length = records.length := by
  refine ⟨⟨records.map Question.ofRecord⟩, rfl, ?_⟩
  simp [run, runGo_length]

/-! ## Claim C3 — metrics persistence across runs -/

/-- Claim C3 (code bug): `main` returns the metrics snapshot exactly as it
found it, for every argument vector, bank file, response stream and random
source: it constructs a fresh `QuizRunner` (empty metrics dict) and calls
neither `load_metrics` nor `save_metrics`, although both helpers exist
(lines 140-147).  Hence no record `{attempts: 2, correct: 1}` can ever be
stored for question id 7 across two program runs — nothing is ever stored. -/
theorem metrics_file_never_written (f g : Nat → Nat) (inputs : Nat → String)
    (bankFile : List JsonRecord) (a : Args) (file : Metrics) :
    ∃ result : QuizResult, pyMain f g inputs bankFile a file = Except.ok (result, file) :=
  ⟨_, rfl⟩

/-! ## Claim C6 — multiple-choice grading -/

/-- Claim C6: for a multiple-choice question with correct zero-based index
`c`, a response parsing to the 1-based ordinal `c + 1` grades correct; a
response parsing to any other integer (out-of-range included) grades
incorrect; a non-parsing response grades incorrect.  `ask_question` is a
total function, so no case raises. -/
theorem mcq_grading (m : Metrics) (q : Question) (raw : String) (c : Int)
    (hq : q.type = "mcq") (hc : q.correct = some c) :
    (pyInt (pyStrip raw) = some (c + 1) → (ask_question m q raw).1.is_correct = true)
    ∧ (∀ n : Int, pyInt (pyStrip raw) = some n → n ≠ c + 1 →
        (ask_question m q raw).1.is_correct = false)
    ∧ (pyInt (pyStrip raw) = none → (ask_question m q raw).1.is_correct = false) := by
  refine ⟨?_, ?_, ?_⟩
  · intro hp
    simp [ask_question, hq, hp, hc]
  · intro n hp hn
    simp [ask_question, hq, hp, hc]
    omega
  · intro hp
    simp [ask_question, hq, hp]

/-- Witness for `mcq_grading` at `qB` (correct index 1) with response `2`. -/
theorem mcq_grading_witness :
    qB.type = "mcq" ∧ qB.correct = some 1
    ∧ pyInt (pyStrip ("2")) = some (1 + 1)
    ∧ (ask_question emptyMetrics qB ("2")).1.is_correct = true :=
  ⟨rfl, rfl, by decide, (mcq_grading emptyMetrics qB ("2") 1 rfl rfl).1 (by decide)⟩

/-! ## Claim C8 — serialisation round trip -/

/-- Claim C8: serialising a bank and reloading the serialised records
reproduces the same sequence of questions, field for field, for every bank
(hence in particular for banks containing both question types). -/
theorem bank_roundtrip (b : QuestionBank) :
    QuestionBank.from_json (QuestionBank.to_json b) = Except.ok b := by
  simp only [QuestionBank.from_json, QuestionBank.to_json, List.map_map]
  have h : b.questions.map (Question.ofRecord ∘ Question.toRecord) = b.questions := by
    simp [Function.comp_def, Question.ofRecord, Question.toRecord]
  rw [h]

/-! ## Claim C4 — per-difficulty selection -/

/-- Claim C4 counterexample: with the per-difficulty policy
`{"": 1, "easy": 1}` over a one-question bank, Python's falsy test
`if difficulty:` turns the empty-string label into "no difficulty filter":
that bucket's pool is the whole bank, the two buckets overlap, and the same
question is returned twice — refuting "the returned sequence never contains
the same question twice" as stated, for this policy. -/
theorem empty_difficulty_label_allows_duplicates :
    generate_quiz f0 f0 ⟨[qA]⟩ ⟨[("", 1), ("easy", 1)], none⟩ none = [qA, qA]
    ∧ ¬ (generate_quiz f0 f0 ⟨[qA]⟩ ⟨[("", 1), ("easy", 1)], none⟩ none).Nodup := by
  constructor <;> decide

/-- Claim C4 amended: for every per-difficulty policy whose difficulty
labels are pairwise distinct (dict keys) and non-empty, over a
duplicate-free bank (ids are unique by the data-model invariant): the
selection's length is the sum over the policy of `min count (len pool)`,
the pool being the code's topic-and-difficulty filter — so an empty pool
contributes zero, with no error; the returned sequence never repeats a
question; the whole selection is drawn from the bank without replacement;
and a draw asked for at least its whole pool returns exactly the pool, up
to order. -/
theorem stratified_selection (f g : Nat → Nat) (bank : QuestionBank) (topic : Option String)
    (pairs : List (String × Nat)) (numq : Option Nat) (hne : pairs ≠ [])
    (hkeys : (pairs.map Prod.fst).Nodup) (hlabels : ∀ p ∈ pairs, p.1 ≠ "")
    (hbank : bank.questions.Nodup) :
    (generate_quiz f g bank ⟨pairs, topic⟩ numq).length
        = (pairs.map (fun p => min p.2 (bank.filter topic (some p.1)).length)).sum
    ∧ (generate_quiz f g bank ⟨pairs, topic⟩ numq).Nodup
    ∧ generate_quiz f g bank ⟨pairs, topic⟩ numq <+~ bank.questions
    ∧ (∀ (step c : Nat) (d : String), (bank.filter topic (some d)).length ≤ c →
        sampleGo f step c (bank.filter topic (some d)) ~ bank.filter topic (some d)) := by
  cases pairs with
  | nil => exact absurd rfl hne
  | cons p ps =>
    have hsel : generate_quiz f g bank ⟨p :: ps, topic⟩ numq
        = pyShuffle g (generateByDifficulty f bank topic 0 (p :: ps)) := rfl
    have hperm := pyShuffle_perm g (generateByDifficulty f bank topic 0 (p :: ps))
    have hnd := generateByDifficulty_nodup f bank topic hbank (p :: ps) 0 hkeys hlabels
    refine ⟨?_, ?_, ?_, ?_⟩
    · rw [hsel, hperm.length_eq, generateByDifficulty_length]
    · rw [hsel]
      exact hperm.symm.nodup hnd
    · rw [hsel]
      exact (hperm.symm.nodup hnd).subperm
        (fun q hq => generateByDifficulty_subset f bank topic (p :: ps) 0 q (hperm.subset hq))
    · intro step c d hc
      exact sampleGo_perm_of_le f c step _ hc

/-- Witness for `stratified_selection` on the three-question demo bank with
policy `{easy: 5, hard: 1}`: min 5 2 + min 1 1 = 3 questions, no
duplicates. -/
theorem stratified_selection_witness :
    (generate_quiz f0 f0 demoBank ⟨[("easy", 5), ("hard", 1)], none⟩ none).length = 3
    ∧ (generate_quiz f0 f0 demoBank ⟨[("easy", 5), ("hard", 1)], none⟩ none).Nodup :=
  ⟨((stratified_selection f0 f0 demoBank none ([("easy", 5), ("hard", 1)]) none
      (by decide) (by decide) (by decide) (by decide)).1).trans (by decide),
    (stratified_selection f0 f0 demoBank none ([("easy", 5), ("hard", 1)]) none
      (by decide) (by decide) (by decide) (by decide)).2.1⟩

/-! ## Claim C5 — flat selection -/

/-- Claim C5 counterexample: the claim says a given desired count of `0`
yields `min 0 (len pool) = 0` questions; but Python's `if num_questions:`
is falsy on `0`, so the code returns the entire filtered pool instead. -/
theorem zero_count_returns_whole_pool :
    generate_quiz f0 f0 ⟨[qA]⟩ ⟨[], none⟩ (some 0) = [qA]
    ∧ (generate_quiz f0 f0 ⟨[qA]⟩ ⟨[], none⟩ (some 0)).length
        ≠ min 0 ([qA] : List Question).length := by
  constructor <;> decide

/-- Claim C5 amended: with no per-difficulty counts the selector filters by
topic only; a positive desired count `n` yields `min n (len pool)` questions
drawn without replacement from the pool (exactly the pool, up to order, when
`n` is at least the pool size); a desired count of `0` is treated like an
absent count, and in both of those cases the entire filtered pool is
returned, up to order. -/
theorem flat_selection (f g : Nat → Nat) (bank : QuestionBank) (topic : Option String)
    (numq : Option Nat) :
    (numq = none → generate_quiz f g bank ⟨[], topic⟩ numq ~ bank.filter topic none)
    ∧ (numq = some 0 → generate_quiz f g bank ⟨[], topic⟩ numq ~ bank.filter topic none)
    ∧ (∀ n : Nat, numq = some n → n ≠ 0 →
        (generate_quiz f g bank ⟨[], topic⟩ numq).length
            = min n (bank.filter topic none).length
        ∧ generate_quiz f g bank ⟨[], topic⟩ numq <+~ bank.filter topic none)
    ∧ (∀ n : Nat, numq = some n → (bank.filter topic none).length ≤ n →
        generate_quiz f g bank ⟨[], topic⟩ numq ~ bank.filter topic none) := by
  refine ⟨?_, ?_, ?_, ?_⟩
  · rintro rfl
    exact pyShuffle_perm g _
  · rintro rfl
    exact pyShuffle_perm g _
  · rintro n rfl hn
    simp only [generate_quiz, if_neg hn]
    constructor
    · rw [(pyShuffle_perm g _).length_eq, sampleGo_length]
      omega
    · exact (pyShuffle_perm g _).subperm.trans (sampleGo_subperm f _ 0 _)
  · rintro n rfl hL
    by_cases hn : n = 0
    · subst hn
      exact pyShuffle_perm g _
    · simp only [generate_quiz, if_neg hn]
      exact (pyShuffle_perm g _).trans
        (sampleGo_perm_of_le f _ 0 _ (Nat.le_min.mpr ⟨hL, Nat.le_refl _⟩))

/-- Witness for `flat_selection` with desired count 1 over the demo bank. -/
theorem flat_selection_witness :
    (generate_quiz f0 f0 demoBank ⟨[], none⟩ (some 1)).length = 1 :=
  ((flat_selection f0 f0 demoBank none (some 1)).2.2.1 1 rfl (by decide)).1.trans (by decide)

/-! ## Claim C7 — score computation -/

/-- Claim C7: the session's score is `100 * correct / asked` as an exact
rational, and `0` for an empty question sequence — the guard `if
quiz_questions` prevents any division by zero. -/
theorem score_formula (inputs : Nat → String) (m : Metrics) (qs : List Question) :
    (qs = [] → (run inputs m qs).1.score = 0)
    ∧ (qs ≠ [] → (run inputs m qs).1.score
        = 100 * (countCorrect (run inputs m qs).1.quiz_questions : ℚ) / (qs.length : ℚ)) := by
  constructor
  · rintro rfl
    rfl
  · intro h
    have hlen : (runGo inputs 0 m qs).1.length = qs.length := runGo_length inputs qs 0 m
    have hne : (runGo inputs 0 m qs).1 ≠ [] := by
      intro hcon
      rw [hcon] at hlen
      exact h (List.length_eq_zero.mp hlen.symm)
    simp only [run, if_neg hne]
    rw [hlen]
    ring

/-- Witness for `score_formula`: four questions, three answered correctly. -/
theorem score_formula_witness :
    ¬ ([qA, qA, qA, qA] : List Question) = []
    ∧ (run demoInputs emptyMetrics [qA, qA, qA, qA]).1.score
        = 100 * (countCorrect (run demoInputs emptyMetrics [qA, qA, qA, qA]).1.quiz_questions : ℚ)
          / (([qA, qA, qA, qA] : List Question).length : ℚ) :=
  ⟨by decide, (score_formula demoInputs emptyMetrics [qA, qA, qA, qA]).2 (by decide)⟩

/-! ## Claim C9 — recorded response -/

/-- Claim C9 counterexample: the claim says that on a multiple-choice parse
failure the response is stored exactly as entered; the code stores the
stripped string (line 104 strips before parsing), so ` abc ` is stored as
`abc`. -/
theorem response_not_stored_verbatim :
    (ask_question emptyMetrics qB (" abc ")).1.user_answer = UserAnswer.str ("abc")
    ∧ UserAnswer.str ("abc") ≠ UserAnswer.str (" abc ") := by
  constructor <;> decide

/-- Claim C9 amended: the `QuizQuestion` pairs the question with a
correctness boolean and a normalised response, not the verbatim one: the
stripped string on a multiple-choice parse failure, the zero-based parsed
index on a successful parse, and the stripped lower-cased string for
free-text. -/
theorem recorded_answer_form (m : Metrics) (q : Question) (raw : String) :
    ((ask_question m q raw).1.question = q)
    ∧ (q.type = "mcq" → pyInt (pyStrip raw) = none →
        (ask_question m q raw).1.user_answer = UserAnswer.str (pyStrip raw))
    ∧ (q.type = "mcq" → ∀ n : Int, pyInt (pyStrip raw) = some n →
        (ask_question m q raw).1.user_answer = UserAnswer.idx (n - 1))
    ∧ (q.type ≠ "mcq" →
        (ask_question m q raw).1.user_answer = UserAnswer.str (pyLower (pyStrip raw))) := by
  refine ⟨rfl, ?_, ?_, ?_⟩
  · intro hq hp
    simp [ask_question, hq, hp]
  · intro hq n hp
    simp [ask_question, hq, hp]
  · intro hq
    simp [ask_question, hq]

/-- Witness for `recorded_answer_form`: parse failure on ` abc `. -/
theorem recorded_answer_form_witness :
    qB.type = "mcq" ∧ pyInt (pyStrip (" abc ")) = none
    ∧ (ask_question emptyMetrics qB (" abc ")).1.user_answer = UserAnswer.str (pyStrip (" abc ")) :=
  ⟨rfl, by decide, (recorded_answer_form emptyMetrics qB (" abc ")).2.1 rfl (by decide)⟩

/-! ## Claim C10 — metrics invariant of ask_question -/

/-- Claim C10: one `ask_question` call preserves `correct ≤ asked` for every
stored id, sets the asked counter of the asked question's id to its previous
value (zero on first encounter) plus one, adds one to its correct counter
exactly when the answer was correct, and leaves every other id's entry
untouched — nothing is ever decremented. -/
theorem ask_question_metrics (m : Metrics) (q : Question) (raw : String)
    (hinv : ∀ (i : Int) (s : Stats), m i = some s → s.correct ≤ s.asked) :
    (∀ (i : Int) (s : Stats), (ask_question m q raw).2 i = some s → s.correct ≤ s.asked)
    ∧ (ask_question m q raw).2 q.id
        = some ⟨((m q.id).getD ⟨0, 0⟩).asked + 1,
            ((m q.id).getD ⟨0, 0⟩).correct
              + (if (ask_question m q raw).1.is_correct then 1 else 0)⟩
    ∧ (∀ j : Int, j ≠ q.id → (ask_question m q raw).2 j = m j) := by
  have hm2 : (ask_question m q raw).2
      = bumpMetrics m q.id (ask_question m q raw).1.is_correct := rfl
  have hold : ((m q.id).getD ⟨0, 0⟩).correct ≤ ((m q.id).getD ⟨0, 0⟩).asked := by
    cases hm : m q.id with
    | none => simp
    | some s => simpa using hinv q.id s hm
  refine ⟨?_, ?_, ?_⟩
  · intro i s hs
    rw [hm2] at hs
    simp only [bumpMetrics] at hs
    split at hs
    · obtain rfl := (Option.some.inj hs).symm
      dsimp only
      split
      · exact Nat.succ_le_succ hold
      · exact Nat.le_succ_of_le hold
    · exact hinv i s hs
  · rw [hm2]
    simp only [bumpMetrics, if_pos rfl]
    cases hb : (ask_question m q raw).1.is_correct <;> simp [hb]
  · intro j hj
    rw [hm2]
    simp only [bumpMetrics, if_neg hj]

/-- Witness for `ask_question_metrics` on an empty metrics dict. -/
theorem ask_question_metrics_witness :
    (ask_question emptyMetrics qA ("x")).2 qA.id
      = some ⟨((emptyMetrics qA.id).getD ⟨0, 0⟩).asked + 1,
          ((emptyMetrics qA.id).getD ⟨0, 0⟩).correct
            + (if (ask_question emptyMetrics qA ("x")).1.is_correct then 1 else 0)⟩ :=
  (ask_question_metrics emptyMetrics qA ("x")
    (fun i s h => by simp [emptyMetrics] at h)).2.1
